import Mathlib

/-!
Shallow embedding of the StreamViX addon core (src/addon.ts):
configuration decoding, Vavoo channel-link cache refresh, content-id
parsing, multi-provider stream orchestration, and the live-TV stream
assembler. External platform collaborators (JSON.parse,
decodeURIComponent, encodeURIComponent, the provider network calls and
the resolver subprocess) are modelled as explicit functional parameters
or outcome values at their interface boundary; everything else is
translated directly from the TypeScript source.
-/

namespace StreamViX

/-- Literal left-brace character (code 123). -/
def lbraceChar : Char := Char.ofNat 123

/-- Literal right-brace character (code 125). -/
def rbraceChar : Char := Char.ofNat 125

/-- JS `s.includes(c)` for a single character. -/
def containsChar (s : String) (c : Char) : Bool := s.data.contains c

/-- JS `s.startsWith(p)`. -/
def startsWithStr (s p : String) : Bool := p.data.isPrefixOf s.data

/-- A decoded configuration object (`AddonConfig` in the source): a
string-keyed map of scalar values, modelled as an association list. -/
abbrev AddonConfig := List (String × String)

/-- Helper for the JSON model: parse a double-quoted string literal
(no escape handling; configuration blobs in scope contain none). -/
def parseStrLit (l : List Char) : Option (String × List Char) :=
  match l with
  | '"' :: r =>
    let body := r.takeWhile (fun c => !(c == '"'))
    match r.dropWhile (fun c => !(c == '"')) with
    | '"' :: rest => some (String.mk body, rest)
    | _ => none
  | _ => none

/-- Helper for the JSON model: members of a flat object, after the
opening brace, fuelled by the remaining length. -/
def parseMembersF : Nat → List Char → Option AddonConfig
  | 0, _ => none
  | fuel + 1, l =>
    match parseStrLit l with
    | none => none
    | some (k, rest) =>
      match rest with
      | ':' :: rest2 =>
        match parseStrLit rest2 with
        | none => none
        | some (v, rest3) =>
          match rest3 with
          | c :: rest4 =>
            if c == rbraceChar then
              if rest4 = [] then some [(k, v)] else none
            else if c == ',' then
              match parseMembersF fuel rest4 with
              | some ms => some ((k, v) :: ms)
              | none => none
            else none
          | [] => none
      | _ => none

/-- Model of the external `JSON.parse` collaborator, restricted to flat
objects with string keys and string values (the shape of the
configuration blobs in scope); any other input fails (`none`, the
embedding of a thrown `SyntaxError`). -/
def miniJsonParse (s : String) : Option AddonConfig :=
  match s.data with
  | c :: rest =>
    if c == lbraceChar then
      match rest with
      | c2 :: rest2 =>
        if c2 == rbraceChar then (if rest2 = [] then some [] else none)
        else parseMembersF rest.length rest
      | [] => none
    else none
  | [] => none

/-- One character of the base64 alphabet used by the source's
`/^[A-Za-z0-9+\/=]+$/` test. -/
def isB64Char (c : Char) : Bool :=
  c.isAlphanum || c == '+' || c == '/' || c == '='

/-- The source's `/^[A-Za-z0-9+\/=]+$/.test(s)`. -/
def matchesB64Alphabet (s : String) : Bool :=
  !(s.data = []) && s.data.all isB64Char

/-- Value of one base64 alphabet character. -/
def sextetVal (c : Char) : Option Nat :=
  if 'A' ≤ c ∧ c ≤ 'Z' then some (c.toNat - 65)
  else if 'a' ≤ c ∧ c ≤ 'z' then some (c.toNat - 71)
  else if '0' ≤ c ∧ c ≤ '9' then some (c.toNat + 4)
  else if c = '+' then some 62
  else if c = '/' then some 63
  else none

/-- Base64 decode on character groups of four, producing bytes.
Models `Buffer.from(s, 'base64')` on well-formed padded input; on input
Node would decode only leniently this model fails instead, which the
surrounding parse cascade treats identically (the subsequent JSON parse
of garbage fails either way). -/
def b64dBytes : List Char → Option (List Nat)
  | [] => some []
  | a :: b :: '=' :: '=' :: [] =>
    match sextetVal a, sextetVal b with
    | some va, some vb => some [va * 4 + vb / 16]
    | _, _ => none
  | a :: b :: c :: '=' :: [] =>
    match sextetVal a, sextetVal b, sextetVal c with
    | some va, some vb, some vc => some [va * 4 + vb / 16, (vb % 16) * 16 + vc / 4]
    | _, _, _ => none
  | a :: b :: c :: d :: rest =>
    match sextetVal a, sextetVal b, sextetVal c, sextetVal d, b64dBytes rest with
    | some va, some vb, some vc, some vd, some bs =>
      some ((va * 4 + vb / 16) :: ((vb % 16) * 16 + vc / 4) :: ((vc % 4) * 64 + vd) :: bs)
    | _, _, _, _, _ => none
  | _ => none

/-- Bytes to text (`.toString('utf-8')`, ASCII fragment of UTF-8). -/
def bytesToStr (bs : List Nat) : String := String.mk (bs.map Char.ofNat)

/-- `Buffer.from(padded, 'base64').toString('utf-8')` as used by the
config decoder. -/
def b64decodeStr (s : String) : Option String := (b64dBytes s.data).map bytesToStr

/-- The source's `.replace(/=+$/, '')`: drop every trailing `=`. -/
def stripTrailingEq (s : String) : String :=
  String.mk ((s.data.reverse.dropWhile (fun c => c == '=')).reverse)

/-- Character-level body of `.replace(/%3D/g, '=')`. -/
def replacePct3DAux : List Char → List Char
  | '%' :: '3' :: 'D' :: rest => '=' :: replacePct3DAux rest
  | c :: rest => c :: replacePct3DAux rest
  | [] => []

/-- The source's `.replace(/%3D/g, '=')`. -/
def replacePct3D (s : String) : String := String.mk (replacePct3DAux s.data)

/-- The `while (paddedBase64.length % 4 !== 0) paddedBase64 += '='`
loop: appends `(4 - len % 4) % 4` padding characters. -/
def padB64 (s : String) : String :=
  s ++ String.mk (List.replicate ((4 - s.data.length % 4) % 4) '=')

/-- The whole `base64Fixed`/`paddedBase64` fix-up applied to the
(percent-decoded) argument before base64 decoding. -/
def b64Fix (s : String) : String := padB64 (stripTrailingEq (replacePct3D s))

/-- For the `/({.*})/` regex: given the characters after a candidate
`\x7b`, the greedy `.*\x7d` match, which cannot cross a line break and
extends to the last `\x7d` of the current line. -/
def upToLastRBrace (l : List Char) : Option (List Char) :=
  let line := l.takeWhile (fun c => !(c == '\n' || c == '\r'))
  if line.contains rbraceChar then
    some ((line.reverse.dropWhile (fun c => !(c == rbraceChar))).reverse)
  else none

/-- Leftmost-start scan of `decoded.match(/({.*})/)`: try each
left-brace position in turn. -/
def braceExtractAux : List Char → Option (List Char)
  | [] => none
  | c :: rest =>
    if c == lbraceChar then
      match upToLastRBrace rest with
      | some chunk => some (c :: chunk)
      | none => braceExtractAux rest
    else braceExtractAux rest

/-- `decoded.match(/({.*})/)`, returning the captured substring. -/
def braceExtract (s : String) : Option String :=
  (braceExtractAux s.data).map String.mk

/-- `parseConfigFromArgs` (src/addon.ts lines 404-500) for a string
argument. The external collaborators are parameters: `jp` models
`JSON.parse` (`none` = thrown SyntaxError) and `uriDec` models
`decodeURIComponent` (`none` = thrown URIError); base64 handling is
concrete. The cascade: direct JSON, then percent-decode + JSON, then
base64 fix-up + decode + JSON (with brace-extraction retry), with an
empty configuration as the final fallback. -/
def parseConfigFromArgs (jp : String → Option AddonConfig)
    (uriDec : String → Option String) (args : String) : AddonConfig :=
  if args = "" ∨ args = "undefined" ∨ args = "null" then []
  else
    match jp args with
    | some parsed => parsed
    | none =>
      let step2 : Option AddonConfig × String :=
        if containsChar args '%' then
          match uriDec args with
          | some d => (jp d, d)
          | none => (none, args)
        else (none, args)
      match step2 with
      | (some parsed, _) => parsed
      | (none, decodedArgs) =>
        if startsWithStr decodedArgs "eyJ" || matchesB64Alphabet decodedArgs then
          match b64decodeStr (b64Fix decodedArgs) with
          | none => []
          | some decoded =>
            if containsChar decoded lbraceChar && containsChar decoded rbraceChar then
              match jp decoded with
              | some parsed => parsed
              | none =>
                match braceExtract decoded with
                | some extracted =>
                  match jp extracted with
                  | some parsed => parsed
                  | none => []
                | none => []
            else []
        else []

/-- A JavaScript number as produced by `parseInt`: either `NaN` or an
integer value. -/
inductive JsNum where
  | nan : JsNum
  | val (n : Int) : JsNum
deriving DecidableEq

/-- Numeric value of a leading run of decimal digits; `none` when the
run is empty (which makes `parseInt` yield `NaN`). -/
def digitsVal (l : List Char) : Option Nat :=
  let ds := l.takeWhile Char.isDigit
  if ds = [] then none
  else some (ds.foldl (fun acc c => acc * 10 + (c.toNat - 48)) 0)

/-- JS `parseInt(s)` with the default radix: skip leading whitespace,
optional sign, then a leading run of decimal digits; `NaN` when no
digit follows. -/
def parseIntJS (s : String) : JsNum :=
  let l := s.data.dropWhile (fun c => c == ' ' || c == '\t' || c == '\n' || c == '\r')
  match l with
  | '-' :: rest =>
    match digitsVal rest with
    | some n => .val (-(n : Int))
    | none => .nan
  | '+' :: rest =>
    match digitsVal rest with
    | some n => .val (n : Int)
    | none => .nan
  | rest =>
    match digitsVal rest with
    | some n => .val (n : Int)
    | none => .nan

/-- Splitting on a separator character, accumulating the current
segment in reverse. -/
def splitOnCharAux (sep : Char) : List Char → List Char → List (List Char)
  | [], acc => [acc.reverse]
  | c :: rest, acc =>
    if c == sep then acc.reverse :: splitOnCharAux sep rest []
    else splitOnCharAux sep rest (c :: acc)

/-- JS `id.split(':')`. -/
def splitColon (s : String) : List String := (splitOnCharAux ':' s.data []).map String.mk

/-- The season/episode interpretation the stream handler derives from a
movie/series id (`seasonNumber`, `episodeNumber`, `isMovie` in the
source); `none` models the initial `null`. -/
structure ParsedContent where
  isMovie : Bool
  seasonNumber : Option JsNum
  episodeNumber : Option JsNum
deriving DecidableEq

/-- The `id.split(':')` interpretation (src/addon.ts lines 1043-1051):
1 segment is a movie, 2 segments set only the episode, 3 segments set
season and episode; any other shape leaves all fields at their initial
values. -/
def parseContentRequest (id : String) : ParsedContent :=
  match splitColon id with
  | [_] => { isMovie := true, seasonNumber := none, episodeNumber := none }
  | [_, e] => { isMovie := false, seasonNumber := none, episodeNumber := some (parseIntJS e) }
  | [_, s, e] => { isMovie := false, seasonNumber := some (parseIntJS s), episodeNumber := some (parseIntJS e) }
  | _ => { isMovie := false, seasonNumber := none, episodeNumber := none }

/-- A stream candidate as assembled by the handler (`Stream` fields
actually inspected by the orchestration logic). -/
structure Stream where
  name : String
  title : String
  url : String
deriving DecidableEq

/-- One entry of the primary provider's response
(`VixCloudStreamInfo`). -/
structure VixCloudStreamInfo where
  streamUrl : Option String
  name : String
  referer : String
deriving DecidableEq

/-- The loop turning `getStreamContent`'s response into `vixStreams`:
entries with a null `streamUrl` are skipped, the rest are tagged
`StreamViX Vx`. -/
def vixToStreams (res : Option (List VixCloudStreamInfo)) : List Stream :=
  match res with
  | none => []
  | some l => l.filterMap (fun st =>
      match st.streamUrl with
      | none => none
      | some u => some { name := "StreamViX Vx", title := st.name, url := u })

/-- Outcome of one asynchronous anime-provider call: a rejection
(`error`), or a resolved result that is either null-ish or carries a
stream list. -/
abbrev ProviderCall := Except Unit (Option (List Stream))

/-- The `.map(s => (\x7b ...s, name: tag \x7d))` re-tagging applied to
every provider result before merging. -/
def retagStream (tag : String) (s : Stream) : Stream := { s with name := tag }

/-- Contribution of one guarded provider block: nothing when the
provider is disabled, nothing when its call rejects (the surrounding
`try/catch` swallows the error) or resolves without streams, and its
re-tagged streams otherwise. -/
def providerContribution (enabled : Bool) (tag : String) (call : ProviderCall) : List Stream :=
  if enabled then
    match call with
    | .error _ => []
    | .ok none => []
    | .ok (some ss) => ss.map (retagStream tag)
  else []

/-- The AnimeUnity-then-AnimeSaturn collection shared by the pure-anime
branch (src/addon.ts lines 963-987) and the movie/series fallback
branch (lines 1052-1086): contributions concatenated in registration
order. -/
def animeProviderStreams (auE asE : Bool) (au as : ProviderCall) : List Stream :=
  providerContribution auE "StreamViX AU" au ++ providerContribution asE "StreamViX AS" as

/-- The pure-anime (`kitsu:`/`mal:`) branch result: the collected
streams when any were found, the empty list otherwise. -/
def kitsuBranchStreams (auE asE : Bool) (au as : ProviderCall) : List Stream :=
  let allStreams := animeProviderStreams auE asE au as
  if allStreams = [] then [] else allStreams

/-- The movie/series fallback's provider dispatch: each provider block
calls `handleImdbRequest` for a `tt` id and `handleTmdbRequest` for a
`tmdb:` id; with neither prefix its result variable stays undefined and
the block pushes nothing. -/
def animeFallbackStreams (auE asE : Bool) (id : String) (au as : ProviderCall) : List Stream :=
  if startsWithStr id "tt" || startsWithStr id "tmdb:" then
    animeProviderStreams auE asE au as
  else []

/-- The movie/series (`tt`/`tmdb:`) branch of the stream handler
(src/addon.ts lines 994-1092). The primary provider's call is the
unguarded `await getStreamContent(...)`: a rejection there escapes the
handler, hence the `Except` result. When the primary yields usable
candidates they are returned alone; otherwise, if a secondary provider
is enabled, the anime fallback is collected (in the source it parses
season/episode from `id` via the lines-1043-1051 logic embedded as
`parseContentRequest` and dispatches on the id prefix; those values
only shape the opaque provider calls, whose outcomes are the `au`/`as`
parameters, with each call guarded by its own `try/catch`). -/
def handleMovieSeries (auE asE : Bool) (id : String)
    (vix : Except Unit (Option (List VixCloudStreamInfo)))
    (au as : ProviderCall) : Except Unit (List Stream) :=
  match vix with
  | .error e => .error e
  | .ok res =>
    let vixStreams := vixToStreams res
    if vixStreams = [] then
      if auE || asE then
        let allStreams := animeFallbackStreams auE asE id au as
        if allStreams = [] then .ok [] else .ok allStreams
      else .ok []
    else .ok vixStreams

/-- In-memory Vavoo cache state (`VavooCache` at src/addon.ts lines
512-522); the link map is modelled as an association list with set
semantics. -/
structure VavooCacheState where
  timestamp : Nat
  links : List (String × String)
  updating : Bool
deriving DecidableEq

/-- One element of the resolver's `--dump-channels` JSON output; an
empty string models a missing/falsy field. -/
structure DumpEntry where
  name : String
  url : String
deriving DecidableEq

/-- Outcome of the `execFilePromise('python3', [...'--dump-channels'],
\x7b timeout: 30000 \x7d)` call: a rejection (error, non-zero exit or
timeout) or a resolved stdout string. -/
inductive ExtOutcome where
  | callFailed : ExtOutcome
  | output (stdout : String) : ExtOutcome
deriving DecidableEq

/-- `Map.set` on the association-list model: overwrite an existing key
or append a new binding. -/
def mapSet (m : List (String × String)) (k v : String) : List (String × String) :=
  if m.any (fun p => p.1 = k) then
    m.map (fun p => if p.1 = k then (k, v) else p)
  else m ++ [(k, v)]

/-- The `for (const ch of channels) if (ch.name && ch.url)
updatedLinks.set(ch.name, ch.url)` loop. -/
def buildLinks (chs : List DumpEntry) : List (String × String) :=
  chs.foldl (fun m ch => if ch.name ≠ "" ∧ ch.url ≠ "" then mapSet m ch.name ch.url else m) []

/-- Body of `updateVavooCache` after the single-flight guard has set
`updating`: `parse` models `JSON.parse` on the resolver's stdout
(`none` = throw, caught below), `now` models `Date.now()`. Every
failure path (rejected call, empty stdout, unparseable JSON) returns
`false` with only the `finally`-reset flag changed; success replaces
the whole link map and the timestamp together. -/
def applyDump (parse : String → Option (List DumpEntry)) (now : Nat)
    (c : VavooCacheState) (ext : ExtOutcome) : Bool × VavooCacheState :=
  match ext with
  | .callFailed => (false, { c with updating := false })
  | .output out =>
    if out = "" then (false, { c with updating := false })
    else
      match parse out with
      | none => (false, { c with updating := false })
      | some chs => (true, { timestamp := now, links := buildLinks chs, updating := false })

/-- `updateVavooCache` (src/addon.ts lines 588-630): the single-flight
guard returns `false` immediately when an update is already in flight,
otherwise the flag is set and the dump is applied. -/
def updateVavooCache (parse : String → Option (List DumpEntry)) (now : Nat)
    (c : VavooCacheState) (ext : ExtOutcome) : Bool × VavooCacheState :=
  if c.updating then (false, c)
  else applyDump parse now { c with updating := true } ext

/-- Whole-system view for the single-flight analysis: the shared cache
plus a ghost count of refresh bodies currently executing and of
resolver invocations performed. -/
structure RefreshSys where
  cache : VavooCacheState
  inFlight : Nat
  extCalls : Nat
deriving DecidableEq

/-- Interleaved steps of concurrent `updateVavooCache` calls. Node's
run-to-completion semantics makes the guard check and the flag
assignment one atomic step (`enter`); a call that observes the flag
returns at once without touching anything (`enterSkip`); the awaited
body later completes with some outcome (`finish`). -/
inductive RefreshStep : RefreshSys → RefreshSys → Prop
  | enter (s : RefreshSys) (h : s.cache.updating = false) :
      RefreshStep s ⟨{ s.cache with updating := true }, s.inFlight + 1, s.extCalls + 1⟩
  | enterSkip (s : RefreshSys) (h : s.cache.updating = true) :
      RefreshStep s s
  | finish (s : RefreshSys) (parse : String → Option (List DumpEntry))
      (now : Nat) (ext : ExtOutcome) (h : s.cache.updating = true) :
      RefreshStep s ⟨(applyDump parse now s.cache ext).2, s.inFlight - 1, s.extCalls⟩

/-- States reachable from a quiescent cache (the module-level constant
starts with `updating: false`; `loadVavooCache` never touches the
flag). -/
inductive ReachableRefresh : RefreshSys → Prop
  | init (c : VavooCacheState) (h : c.updating = false) : ReachableRefresh ⟨c, 0, 0⟩
  | step {s s' : RefreshSys} : ReachableRefresh s → RefreshStep s s' → ReachableRefresh s'

/-- `normalizeProxyUrl` (src/addon.ts lines 822-824 and 1519-1521):
`url.endsWith('/') ? url.slice(0, -1) : url`, i.e. drop the final
character exactly when it is a slash. -/
def normalizeProxyUrl (url : String) : String :=
  if url.data.getLast? = some '/' then String.mk url.data.dropLast else url

/-- Channel record fields consulted by the live-TV stream assembly; an
empty string models a missing/falsy field. -/
structure TvChannelRec where
  id : String
  name : String
  staticUrl : String
  staticUrl2 : String
  staticUrlD : String
deriving DecidableEq

/-- Configuration fields consulted by the live-TV stream assembly; an
empty string models a missing/falsy field (the environment fallbacks
are folded into the field values at this boundary). -/
structure TvConfig where
  mfpProxyUrl : String
  mfpProxyPassword : String
  mediaFlowProxyUrl : String
  mediaFlowProxyPassword : String
  tvProxyUrl : String
deriving DecidableEq

/-- `const mfpUrl = config.mfpProxyUrl ? normalizeProxyUrl(...) :
(config.mediaFlowProxyUrl ? normalizeProxyUrl(...) : '')`. -/
def mfpUrlOf (cfg : TvConfig) : String :=
  if cfg.mfpProxyUrl ≠ "" then normalizeProxyUrl cfg.mfpProxyUrl
  else if cfg.mediaFlowProxyUrl ≠ "" then normalizeProxyUrl cfg.mediaFlowProxyUrl
  else ""

/-- `const mfpPsw = config.mfpProxyPassword ||
config.mediaFlowProxyPassword || ''`. -/
def mfpPswOf (cfg : TvConfig) : String :=
  if cfg.mfpProxyPassword ≠ "" then cfg.mfpProxyPassword else cfg.mediaFlowProxyPassword

/-- `const tvProxyUrl = config.tvProxyUrl ? normalizeProxyUrl(...) :
''`. -/
def tvProxyUrlOf (cfg : TvConfig) : String :=
  if cfg.tvProxyUrl ≠ "" then normalizeProxyUrl cfg.tvProxyUrl else ""

/-- Scan for an occurrence of `pat` at any position. -/
def hasSubstrAux (pat : List Char) : List Char → Bool
  | [] => pat.isPrefixOf ([] : List Char)
  | c :: rest => pat.isPrefixOf (c :: rest) || hasSubstrAux pat rest

/-- JS `s.includes(pat)` for a substring. -/
def hasSubstr (s pat : String) : Bool := hasSubstrAux pat.data s.data

/-- The generic-proxy URL template choice: the manifest-style template
when the target contains `.mpd`, the generic stream template
otherwise. -/
def proxyWrapMfp (encU : String → String) (mfpUrl mfpPsw u : String) : String :=
  if hasSubstr u ".mpd" then
    mfpUrl ++ "/proxy/mpd/manifest.m3u8?api_password=" ++ encU mfpPsw ++ "&d=" ++ u
  else
    mfpUrl ++ "/proxy/stream/?api_password=" ++ encU mfpPsw ++ "&d=" ++ u

/-- The TV-specific proxy URL template. -/
def proxyWrapTv (encU : String → String) (tvProxyUrl u : String) : String :=
  tvProxyUrl ++ "/proxy/m3u?url=" ++ encU u

/-- `isFreeToAirChannel` (src/addon.ts lines 1420-1431): membership of
the hard-coded free-to-air id list. -/
def isFreeToAirChannel (channelId : String) : Bool :=
  [ "rai1", "rai2", "rai3", "rai4", "rai5", "raimovie", "raipremium", "raigulp", "raiyoyo",
    "rainews24", "raistoria", "raiscuola", "raisport", "rai4k",
    "rete4", "canale5", "italia1", "20mediaset", "iris", "la5", "twentyseven", "cine34",
    "focus", "topcrime", "boing", "cartoonito", "super", "italia2", "tgcom24", "mediasetextra",
    "la7", "la7d", "tv8", "nove", "cielo", "tv2000", "realtime", "qvc", "foodnetwork",
    "warnertv", "giallo", "k2", "frisbee", "dmax", "hgtv", "motortrend", "rtl1025tv",
    "sportitalia", "donnatv", "supertennis" ].contains channelId

/-- `const cleanId = id.startsWith('tv:') ? id.replace('tv:', '') :
id`. -/
def cleanTvId (id : String) : String :=
  if startsWithStr id "tv:" then String.mk (id.data.drop 3) else id

/-- An entry of the intermediate `streams` array (url plus display
title). -/
structure TvEntry where
  url : String
  title : String
deriving DecidableEq

/-- One static-link step of the assembler (steps 1 and 2 share this
shape): nothing when the link is absent; the unmodified link for a
free-to-air channel; the generic-proxy wrap when base URL and password
are both configured; the unmodified link as last resort. -/
def staticStepEntries (encU : String → String) (isFTA : Bool) (mfpUrl mfpPsw : String)
    (u : String) (titleDirect titleProxy : String) : List TvEntry :=
  if u = "" then []
  else if isFTA then [⟨u, titleDirect⟩]
  else if mfpUrl ≠ "" ∧ mfpPsw ≠ "" then [⟨proxyWrapMfp encU mfpUrl mfpPsw u, titleProxy⟩]
  else [⟨u, titleDirect⟩]

/-- Step 3: the `staticUrlD` link, wrapped through the TV-specific
proxy when one is configured, used directly otherwise. -/
def staticUrlDEntries (encU : String → String) (tvProxyUrl u : String)
    (title : String) : List TvEntry :=
  if u = "" then []
  else if tvProxyUrl ≠ "" then [⟨proxyWrapTv encU tvProxyUrl u, title⟩]
  else [⟨u, title⟩]

/-- Step 4: the dynamically resolved Vavoo link, attempted only when a
channel name and a TV proxy are available; `vavoo` is the awaited
outcome of `resolveVavooChannelByName` (`none` models null: timeout,
error, or empty stdout). -/
def vavooEntries (encU : String → String) (channelName tvProxyUrl : String)
    (vavoo : Option String) (title : String) : List TvEntry :=
  if channelName ≠ "" ∧ tvProxyUrl ≠ "" then
    match vavoo with
    | some link => [⟨proxyWrapTv encU tvProxyUrl link, title⟩]
    | none => []
  else []

/-- The live-TV branch of the stream handler (src/addon.ts lines
1703-1822): four additive steps in declaration order, then the
conversion to the final `Stream` shape tagged `StreamViX TV`. `encU`
models the external `encodeURIComponent`. -/
def buildTvStreams (encU : String → String) (cfg : TvConfig) (ch : TvChannelRec)
    (vavoo : Option String) : List Stream :=
  let mfpUrl := mfpUrlOf cfg
  let mfpPsw := mfpPswOf cfg
  let tvProxyUrl := tvProxyUrlOf cfg
  let isFTA := isFreeToAirChannel (cleanTvId ch.id)
  let entries :=
    staticStepEntries encU isFTA mfpUrl mfpPsw ch.staticUrl
      ("🔴 " ++ ch.name ++ " (Direct)") ("🔴 " ++ ch.name ++ " (Proxy)") ++
    staticStepEntries encU isFTA mfpUrl mfpPsw ch.staticUrl2
      ("🎬 " ++ ch.name ++ " (HD)") ("🎬 " ++ ch.name ++ " (HD)") ++
    staticUrlDEntries encU tvProxyUrl ch.staticUrlD ("📱 " ++ ch.name ++ " (D)") ++
    vavooEntries encU ch.name tvProxyUrl vavoo ("🌟 " ++ ch.name ++ " (Vavoo)")
  entries.map (fun e => { name := "StreamViX TV", title := e.title, url := e.url })

/-! ### Helper lemmas -/

theorem string_data_append (s t : String) : (s ++ t).data = s.data ++ t.data := by
cases s
cases t
rfl

theorem string_mk_data (s : String) : String.mk s.data = s := by
cases s
rfl

theorem providerContribution_error (enabled : Bool) (tag : String) (e : Unit) :
    providerContribution enabled tag (Except.error e) = [] := by
cases enabled <;> simp [providerContribution]

theorem if_empty_else_self (l : List Stream) : (if l = [] then ([] : List Stream) else l) = l := by
split <;> simp_all

theorem handleMovieSeries_resolves (auE asE : Bool) (id : String)
    (res : Option (List VixCloudStreamInfo)) (au as : ProviderCall) :
    ∃ l, handleMovieSeries auE asE id (Except.ok res) au as = Except.ok l := by
simp only [handleMovieSeries]
split
· split
  · split
    · exact ⟨_, rfl⟩
    · exact ⟨_, rfl⟩
  · exact ⟨_, rfl⟩
· exact ⟨_, rfl⟩

/-! ### Claims -/

/-- Claim C3: `parseConfigFromArgs` is total on strings (the embedding
returns a plain `AddonConfig`, mirroring the source where every
fallible call sits inside a `try/catch`), and when every decode stage
fails — here, when the JSON parser rejects every string it is handed —
the result is the empty settings object. -/
theorem parseConfig_total_failure_empty (jp : String → Option AddonConfig)
    (uriDec : String → Option String) (args : String)
    (h : ∀ s, jp s = none) : parseConfigFromArgs jp uriDec args = [] := by
unfold parseConfigFromArgs
split
· rfl
· simp only [h]
  split
  · next parsed snd heq =>
      split at heq
      · rcases huri : uriDec args with _ | d <;> rw [huri] at heq <;> simp at heq
      · simp at heq
  · repeat' split <;> simp_all

/-- Witness for C3 at a concrete adversarial input. -/
theorem parseConfig_total_failure_empty_witness :
    parseConfigFromArgs (fun _ => none) (fun _ => none) "!!not-json-nor-base64!!" = [] :=
parseConfig_total_failure_empty (fun _ => none) (fun _ => none) "!!not-json-nor-base64!!" (fun _ => rfl)

/-- Claim C4: an argument that is the base64 encoding of a settings
object's JSON text — stated through the decoder: it base64-decodes (in
canonical, already-padded form) to text that the JSON parser maps to
`c`, while the direct-JSON stage rejects it — is reconstructed by
`parseConfigFromArgs` via the base64 stage. The witness instantiates
the scenario `eyJ0bWRiQXBpS2V5IjoiWCJ9`. -/
theorem parseConfig_base64_stage_roundtrip (jp : String → Option AddonConfig)
    (uriDec : String → Option String) (args txt : String) (c : AddonConfig)
    (h0 : args ≠ "") (h1 : args ≠ "undefined") (h2 : args ≠ "null")
    (h3 : jp args = none)
    (h4 : containsChar args '%' = false)
    (h5 : startsWithStr args "eyJ" = true ∨ matchesB64Alphabet args = true)
    (h6 : b64Fix args = args)
    (h7 : b64decodeStr args = some txt)
    (h8 : containsChar txt lbraceChar = true)
    (h9 : containsChar txt rbraceChar = true)
    (h10 : jp txt = some c) :
    parseConfigFromArgs jp uriDec args = c := by
unfold parseConfigFromArgs
have h5b : (startsWithStr args "eyJ" || matchesB64Alphabet args) = true := by
  rcases h5 with h5 | h5 <;> simp [h5]
rw [if_neg (by simp [h0, h1, h2])]
simp [h3, h4, h5b, h6, h7, h8, h9, h10]

/-- Witness for C4: the concrete config segment
`eyJ0bWRiQXBpS2V5IjoiWCJ9` (base64 of the JSON text for the map with
single key `tmdbApiKey` and value `X`) decodes to exactly that map,
with the JSON collaborator instantiated by the concrete flat-object
parser. -/
theorem parseConfig_base64_stage_roundtrip_witness :
    parseConfigFromArgs miniJsonParse (fun _ => none) "eyJ0bWRiQXBpS2V5IjoiWCJ9" =
      [("tmdbApiKey", "X")] :=
parseConfig_base64_stage_roundtrip miniJsonParse (fun _ => none)
  "eyJ0bWRiQXBpS2V5IjoiWCJ9" "\x7b\"tmdbApiKey\":\"X\"\x7d" [("tmdbApiKey", "X")]
  (by decide) (by decide) (by decide) (by decide) (by decide)
  (Or.inl (by decide)) (by decide) (by decide) (by decide) (by decide) (by decide)

/-- Claim C7: splitting a movie/series id on `:` gives, for 1 segment,
a movie with neither season nor episode; for 2 segments, an episode
with no season; for 3 segments, both season and episode. -/
theorem contentId_segment_parsing (id : String) :
    ((splitColon id).length = 1 →
      parseContentRequest id = { isMovie := true, seasonNumber := none, episodeNumber := none }) ∧
    ((splitColon id).length = 2 →
      (parseContentRequest id).isMovie = false ∧
      (parseContentRequest id).seasonNumber = none ∧
      (parseContentRequest id).episodeNumber.isSome = true) ∧
    ((splitColon id).length = 3 →
      (parseContentRequest id).isMovie = false ∧
      (parseContentRequest id).seasonNumber.isSome = true ∧
      (parseContentRequest id).episodeNumber.isSome = true) := by
refine ⟨fun h1 => ?_, fun h2 => ?_, fun h3 => ?_⟩
· obtain ⟨a, ha⟩ := List.length_eq_one.mp h1
  simp [parseContentRequest, ha]
· obtain ⟨a, b, hab⟩ := List.length_eq_two.mp h2
  simp [parseContentRequest, hab]
· obtain ⟨a, b, c, habc⟩ := List.length_eq_three.mp h3
  simp [parseContentRequest, habc]

/-- Witness for C7: the three segment shapes at concrete ids. -/
theorem contentId_segment_parsing_witness :
    parseContentRequest "tt0000001" = { isMovie := true, seasonNumber := none, episodeNumber := none } ∧
    ((parseContentRequest "tt0000001:5").seasonNumber = none ∧
      (parseContentRequest "tt0000001:5").episodeNumber.isSome = true) ∧
    ((parseContentRequest "tt0000001:2:5").seasonNumber.isSome = true ∧
      (parseContentRequest "tt0000001:2:5").episodeNumber.isSome = true) :=
⟨(contentId_segment_parsing "tt0000001").1 (by decide),
 ⟨((contentId_segment_parsing "tt0000001:5").2.1 (by decide)).2.1,
  ((contentId_segment_parsing "tt0000001:5").2.1 (by decide)).2.2⟩,
 ⟨((contentId_segment_parsing "tt0000001:2:5").2.2 (by decide)).2.1,
  ((contentId_segment_parsing "tt0000001:2:5").2.2 (by decide)).2.2⟩⟩

/-- Claim C8 counterexample: at the two-segment id `tt0000001:5` the
parsed content has an episode but no season, so season and episode are
not "either both present or both absent". -/
theorem contentId_both_or_neither_cx :
    ¬ ((parseContentRequest "tt0000001:5").seasonNumber.isSome =
        (parseContentRequest "tt0000001:5").episodeNumber.isSome) := by decide

/-- Claim C8 (amended): for every parsed content id, if the season
field is present then the episode field is present; the converse fails
for two-segment ids, which set the episode alone. -/
theorem contentId_season_implies_episode (id : String)
    (h : (parseContentRequest id).seasonNumber.isSome = true) :
    (parseContentRequest id).episodeNumber.isSome = true := by
unfold parseContentRequest at h ⊢
rcases hl : splitColon id with _ | ⟨a, _ | ⟨b, _ | ⟨c, _ | ⟨d, rest⟩⟩⟩⟩ <;> simp_all

/-- Witness for C8's amended claim at a three-segment id. -/
theorem contentId_season_implies_episode_witness :
    (parseContentRequest "tt0000001:2:5").episodeNumber.isSome = true :=
contentId_season_implies_episode "tt0000001:2:5" (by decide)

theorem applyDump_updating_false (parse : String → Option (List DumpEntry)) (now : Nat)
    (c : VavooCacheState) (ext : ExtOutcome) :
    ((applyDump parse now c ext).2).updating = false := by
rcases ext with _ | out
· rfl
· unfold applyDump
  by_cases ho : out = ""
  · simp [ho]
  · cases hp : parse out <;> simp [ho, hp]

/-- Claim C5: in every reachable state of the refresh system at most
one refresh body is executing, and a `updateVavooCache` call made while
the in-flight flag is set returns `false` immediately with the cache
untouched (so it performs no external call and no mutation). -/
theorem refresh_single_flight (s : RefreshSys) (h : ReachableRefresh s) :
    (s.inFlight ≤ 1 ∧ (s.cache.updating = true ↔ s.inFlight = 1)) ∧
    (s.cache.updating = true →
      ∀ (parse : String → Option (List DumpEntry)) (now : Nat) (ext : ExtOutcome),
        updateVavooCache parse now s.cache ext = (false, s.cache)) := by
have main : s.inFlight ≤ 1 ∧ (s.cache.updating = true ↔ s.inFlight = 1) := by
  induction h with
  | init c hc => simp [hc]
  | step hr hs ih =>
    cases hs with
    | enter ht =>
      rename_i t
      have h0 : t.inFlight = 0 := by
        rcases Nat.lt_or_ge t.inFlight 1 with h1 | h1
        · omega
        · exact absurd (ih.2.mpr (by omega)) (by simp [ht])
      simp [h0]
    | enterSkip ht => exact ih
    | finish parse now ext ht =>
      rename_i t
      have h1 : t.inFlight = 1 := ih.2.mp ht
      simp [h1, applyDump_updating_false]
refine ⟨main, fun hu parse now ext => ?_⟩
unfold updateVavooCache
simp [hu]

/-- Witness for C5: a state with one refresh in flight, reached from
the quiescent initial cache, at which a second call is a no-op. -/
theorem refresh_single_flight_witness :
    (RefreshSys.mk (VavooCacheState.mk 0 [] true) 1 1).inFlight ≤ 1 ∧
    updateVavooCache (fun _ => none) 0 (VavooCacheState.mk 0 [] true) ExtOutcome.callFailed =
      (false, VavooCacheState.mk 0 [] true) := by
have hr : ReachableRefresh (RefreshSys.mk (VavooCacheState.mk 0 [] true) 1 1) :=
  ReachableRefresh.step
    (ReachableRefresh.init (VavooCacheState.mk 0 [] false) rfl)
    (RefreshStep.enter (RefreshSys.mk (VavooCacheState.mk 0 [] false) 0 0) rfl)
exact ⟨(refresh_single_flight _ hr).1.1,
  (refresh_single_flight _ hr).2 rfl (fun _ => none) 0 ExtOutcome.callFailed⟩

/-- Claim C6: whenever `updateVavooCache` fails (rejected or timed-out
external call, empty stdout, or unparseable JSON) it returns `false`
and leaves the link map and timestamp exactly as before; it returns
`true` only by replacing the whole link map and the timestamp together
from a parsed dump. -/
theorem refresh_failure_preserves_cache (parse : String → Option (List DumpEntry))
    (now : Nat) (c : VavooCacheState) (ext : ExtOutcome) :
    ((updateVavooCache parse now c ext).1 = false →
      (updateVavooCache parse now c ext).2.links = c.links ∧
      (updateVavooCache parse now c ext).2.timestamp = c.timestamp) ∧
    ((updateVavooCache parse now c ext).1 = true →
      ∃ out chs, ext = ExtOutcome.output out ∧ parse out = some chs ∧
        (updateVavooCache parse now c ext).2.links = buildLinks chs ∧
        (updateVavooCache parse now c ext).2.timestamp = now) := by
unfold updateVavooCache applyDump
by_cases hu : c.updating
· simp [hu]
· rcases ext with _ | out
  · simp [hu]
  · by_cases ho : out = ""
    · simp [hu, ho]
    · cases hp : parse out with
      | none => simp [hu, ho, hp]
      | some chs => simp [hu, ho, hp]

/-- Witness for C6: a concrete failed refresh (rejected external call)
leaves a concrete populated cache intact. -/
theorem refresh_failure_preserves_cache_witness :
    (updateVavooCache (fun _ => none) 5 (VavooCacheState.mk 7 [("Channel A", "http://x/y")] false)
        ExtOutcome.callFailed).2.links = [("Channel A", "http://x/y")] ∧
    (updateVavooCache (fun _ => none) 5 (VavooCacheState.mk 7 [("Channel A", "http://x/y")] false)
        ExtOutcome.callFailed).2.timestamp = 7 :=
(refresh_failure_preserves_cache (fun _ => none) 5
  (VavooCacheState.mk 7 [("Channel A", "http://x/y")] false) ExtOutcome.callFailed).1 (by decide)

/-- Claim C1: for a movie/series id (`tt`/`tmdb:`-prefixed), the
handler consumes the primary (VixSrc) result first; whenever it yields
at least one usable candidate the result is exactly those candidates,
and the secondary (anime) providers are never invoked — the outcome is
independent of their hypothetical results. -/
theorem vix_primary_short_circuits (auE asE : Bool) (id : String)
    (res : Option (List VixCloudStreamInfo)) (au as au' as' : ProviderCall)
    (hid : startsWithStr id "tt" = true ∨ startsWithStr id "tmdb:" = true)
    (hvix : vixToStreams res ≠ []) :
    handleMovieSeries auE asE id (Except.ok res) au as = Except.ok (vixToStreams res) ∧
    handleMovieSeries auE asE id (Except.ok res) au as =
      handleMovieSeries auE asE id (Except.ok res) au' as' := by
simp only [handleMovieSeries]
rw [if_neg (by simp [hvix]), if_neg (by simp [hvix])]
exact ⟨rfl, rfl⟩

/-- Witness for C1: a movie id whose primary result has one usable
candidate; the secondary providers' results (here: candidates of their
own) do not appear. -/
theorem vix_primary_short_circuits_witness :
    handleMovieSeries true true "tt0000001"
      (Except.ok (some [VixCloudStreamInfo.mk (some "http://vix/playlist.m3u8") "Movie [ITA]" "ref"]))
      (Except.ok (some [Stream.mk "AU" "ep" "http://au/1"]))
      (Except.ok (some [Stream.mk "AS" "ep" "http://as/1"])) =
      Except.ok [Stream.mk "StreamViX Vx" "Movie [ITA]" "http://vix/playlist.m3u8"] := by
have h := (vix_primary_short_circuits true true "tt0000001"
    (some [VixCloudStreamInfo.mk (some "http://vix/playlist.m3u8") "Movie [ITA]" "ref"])
    (Except.ok (some [Stream.mk "AU" "ep" "http://au/1"]))
    (Except.ok (some [Stream.mk "AS" "ep" "http://as/1"]))
    (Except.error ()) (Except.error ())
    (Or.inl (by decide)) (by decide)).1
exact h.trans (congrArg Except.ok (by decide))

/-- Claim C2 counterexample: the primary provider's call
(`getStreamContent`) is not guarded in the movie/series branch, so with
both anime providers enabled and each holding a valid candidate, a
primary rejection escapes the handler as an exception instead of the
siblings' candidates being collected. -/
theorem primary_rejection_escapes_cx :
    handleMovieSeries true true "tt0000001" (Except.error ())
      (Except.ok (some [Stream.mk "AU" "ep" "http://au/1"]))
      (Except.ok (some [Stream.mk "AS" "ep" "http://as/1"])) = Except.error () := rfl

/-- Claim C2 (amended): a throwing secondary (anime) provider call is
isolated — the handler still resolves to a stream list (no exception
escapes from the guarded anime blocks), and in both the pure-anime
branch and the movie/series fallback the failing provider contributes
zero candidates while the sibling's contribution is returned
unaffected. A rejection of the unguarded primary call, by contrast,
propagates to the handler's caller. -/
theorem anime_provider_isolation (auE asE : Bool) (id : String)
    (res : Option (List VixCloudStreamInfo)) (au as : ProviderCall) (e : Unit)
    (hid : startsWithStr id "tt" = true ∨ startsWithStr id "tmdb:" = true) :
    (∃ l, handleMovieSeries auE asE id (Except.ok res) (Except.error e) as = Except.ok l) ∧
    (∃ l, handleMovieSeries auE asE id (Except.ok res) au (Except.error e) = Except.ok l) ∧
    kitsuBranchStreams auE asE (Except.error e) as = providerContribution asE "StreamViX AS" as ∧
    kitsuBranchStreams auE asE au (Except.error e) = providerContribution auE "StreamViX AU" au ∧
    animeFallbackStreams auE asE id (Except.error e) as = providerContribution asE "StreamViX AS" as ∧
    animeFallbackStreams auE asE id au (Except.error e) = providerContribution auE "StreamViX AU" au := by
have hid' : (startsWithStr id "tt" || startsWithStr id "tmdb:") = true := by
  rcases hid with h | h <;> simp [h]
refine ⟨handleMovieSeries_resolves auE asE id res (Except.error e) as,
  handleMovieSeries_resolves auE asE id res au (Except.error e), ?_, ?_, ?_, ?_⟩
· rw [kitsuBranchStreams, animeProviderStreams, providerContribution_error, List.nil_append,
    if_empty_else_self]
· rw [kitsuBranchStreams, animeProviderStreams, providerContribution_error, List.append_nil,
    if_empty_else_self]
· rw [animeFallbackStreams, if_pos hid', animeProviderStreams, providerContribution_error,
    List.nil_append]
· rw [animeFallbackStreams, if_pos hid', animeProviderStreams, providerContribution_error,
    List.append_nil]

/-- Witness for C2's amended claim: AnimeUnity's call rejects while
AnimeSaturn returns one candidate, which is returned re-tagged and
alone. -/
theorem anime_provider_isolation_witness :
    kitsuBranchStreams true true (Except.error ())
      (Except.ok (some [Stream.mk "AS" "ep1" "http://as/1"])) =
      [Stream.mk "StreamViX AS" "ep1" "http://as/1"] := by
have h := (anime_provider_isolation true true "tt0000001" none
    (Except.ok (some [Stream.mk "AS" "ep1" "http://as/1"]))
    (Except.ok (some [Stream.mk "AS" "ep1" "http://as/1"])) ()
    (Or.inl (by decide))).2.2.1
exact h.trans (by decide)

/-- Claim C9: for a channel with a primary static link, a free-to-air
channel's link heads the assembled list unmodified (never
proxy-wrapped); a non-free-to-air channel's link is wrapped in the
generic proxy template (manifest-style when the link contains `.mpd`,
generic stream template otherwise) exactly when both a proxy base URL
and a password are configured, and is used unmodified otherwise. -/
theorem tv_static_link_proxy_policy (encU : String → String) (cfg : TvConfig)
    (ch : TvChannelRec) (vavoo : Option String) (h : ch.staticUrl ≠ "") :
    (isFreeToAirChannel (cleanTvId ch.id) = true →
      (buildTvStreams encU cfg ch vavoo).head? =
        some (Stream.mk "StreamViX TV" ("🔴 " ++ ch.name ++ " (Direct)") ch.staticUrl)) ∧
    (isFreeToAirChannel (cleanTvId ch.id) = false → mfpUrlOf cfg ≠ "" → mfpPswOf cfg ≠ "" →
      (buildTvStreams encU cfg ch vavoo).head? =
        some (Stream.mk "StreamViX TV" ("🔴 " ++ ch.name ++ " (Proxy)")
          (if hasSubstr ch.staticUrl ".mpd" then
            mfpUrlOf cfg ++ "/proxy/mpd/manifest.m3u8?api_password=" ++ encU (mfpPswOf cfg) ++
              "&d=" ++ ch.staticUrl
          else
            mfpUrlOf cfg ++ "/proxy/stream/?api_password=" ++ encU (mfpPswOf cfg) ++
              "&d=" ++ ch.staticUrl))) ∧
    (isFreeToAirChannel (cleanTvId ch.id) = false → (mfpUrlOf cfg = "" ∨ mfpPswOf cfg = "") →
      (buildTvStreams encU cfg ch vavoo).head? =
        some (Stream.mk "StreamViX TV" ("🔴 " ++ ch.name ++ " (Direct)") ch.staticUrl)) := by
refine ⟨fun hf => ?_, fun hf hm hp => ?_, fun hf hmp => ?_⟩
· simp [buildTvStreams, staticStepEntries, h, hf]
· simp [buildTvStreams, staticStepEntries, h, hf, hm, hp, proxyWrapMfp]
· rcases hmp with hm | hp
  · simp [buildTvStreams, staticStepEntries, h, hf, hm]
  · simp [buildTvStreams, staticStepEntries, h, hf, hp]

/-- Witness for C9: the free-to-air channel `rai1` with a static link
is served directly even with a proxy configured, while a
non-free-to-air channel with the same configuration is wrapped in the
generic stream template. -/
theorem tv_static_link_proxy_policy_witness :
    (buildTvStreams (fun s => s)
        (TvConfig.mk "http://mfp/" "pw" "" "" "") (TvChannelRec.mk "rai1" "Rai 1" "http://cdn/rai1.m3u8" "" "")
        none).head? =
      some (Stream.mk "StreamViX TV" "🔴 Rai 1 (Direct)" "http://cdn/rai1.m3u8") ∧
    (buildTvStreams (fun s => s)
        (TvConfig.mk "http://mfp/" "pw" "" "" "") (TvChannelRec.mk "skysport" "Sky Sport" "http://cdn/sky.m3u8" "" "")
        none).head? =
      some (Stream.mk "StreamViX TV" "🔴 Sky Sport (Proxy)"
        "http://mfp/proxy/stream/?api_password=pw&d=http://cdn/sky.m3u8") := by
constructor
· exact (tv_static_link_proxy_policy (fun s => s) (TvConfig.mk "http://mfp/" "pw" "" "" "")
    (TvChannelRec.mk "rai1" "Rai 1" "http://cdn/rai1.m3u8" "" "") none (by decide)).1 (by decide)
· have h := (tv_static_link_proxy_policy (fun s => s) (TvConfig.mk "http://mfp/" "pw" "" "" "")
    (TvChannelRec.mk "skysport" "Sky Sport" "http://cdn/sky.m3u8" "" "") none (by decide)).2.1
    (by decide) (by decide) (by decide)
  exact h.trans (by decide)

/-- Claim C10 counterexample: `normalizeProxyUrl` is not idempotent —
on a base URL ending in a double slash a second application strips a
second slash. -/
theorem normalizeProxyUrl_not_idempotent_cx :
    normalizeProxyUrl (normalizeProxyUrl "http://host//") ≠ normalizeProxyUrl "http://host//" := by
decide

theorem buildTvStreams_proj (encU : String → String) (cfg cfg' : TvConfig)
    (ch : TvChannelRec) (vavoo : Option String)
    (h1 : mfpUrlOf cfg = mfpUrlOf cfg') (h2 : mfpPswOf cfg = mfpPswOf cfg')
    (h3 : tvProxyUrlOf cfg = tvProxyUrlOf cfg') :
    buildTvStreams encU cfg ch vavoo = buildTvStreams encU cfg' ch vavoo := by
unfold buildTvStreams
rw [h1, h2, h3]

/-- Claim C10 (amended): `normalizeProxyUrl` strips exactly one
trailing slash, so for every nonempty base URL with no trailing slash
the normalized base — and hence every assembled proxied stream URL —
is identical whether the configured value carries one trailing slash
or none; the function is idempotent except on values ending in a
double slash. -/
theorem proxy_trailing_slash_invariance (u : String) (cfg : TvConfig) (ch : TvChannelRec)
    (vavoo : Option String) (encU : String → String)
    (h0 : u ≠ "") (h1 : u.data.getLast? ≠ some '/') :
    normalizeProxyUrl (u ++ "/") = u ∧
    normalizeProxyUrl u = u ∧
    buildTvStreams encU { cfg with mfpProxyUrl := u ++ "/" } ch vavoo =
      buildTvStreams encU { cfg with mfpProxyUrl := u } ch vavoo ∧
    buildTvStreams encU { cfg with mediaFlowProxyUrl := u ++ "/" } ch vavoo =
      buildTvStreams encU { cfg with mediaFlowProxyUrl := u } ch vavoo ∧
    buildTvStreams encU { cfg with tvProxyUrl := u ++ "/" } ch vavoo =
      buildTvStreams encU { cfg with tvProxyUrl := u } ch vavoo ∧
    (∀ v : String, v.data.getLast? ≠ some '/' ∨ v.data.dropLast.getLast? ≠ some '/' →
      normalizeProxyUrl (normalizeProxyUrl v) = normalizeProxyUrl v) := by
have hslash : (u ++ "/").data = u.data ++ ['/'] := by
  rw [string_data_append]
have hnorm1 : normalizeProxyUrl (u ++ "/") = u := by
  unfold normalizeProxyUrl
  rw [hslash, List.getLast?_concat, if_pos rfl, List.dropLast_concat, string_mk_data]
have hnorm2 : normalizeProxyUrl u = u := by
  unfold normalizeProxyUrl
  rw [if_neg h1]
have happend_ne : u ++ "/" ≠ "" := by
  intro hcontra
  have : (u ++ "/").data = [] := by rw [hcontra]
  rw [hslash] at this
  simp at this
have hmf1 : mfpUrlOf { cfg with mfpProxyUrl := u ++ "/" } =
    mfpUrlOf { cfg with mfpProxyUrl := u } := by
  simp only [mfpUrlOf]
  rw [if_pos happend_ne, if_pos h0, hnorm1, hnorm2]
have hmf2 : mfpUrlOf { cfg with mediaFlowProxyUrl := u ++ "/" } =
    mfpUrlOf { cfg with mediaFlowProxyUrl := u } := by
  simp only [mfpUrlOf]
  by_cases hc : cfg.mfpProxyUrl ≠ ""
  · rw [if_pos hc, if_pos hc]
  · rw [if_neg hc, if_neg hc, if_pos happend_ne, if_pos h0, hnorm1, hnorm2]
have htv : tvProxyUrlOf { cfg with tvProxyUrl := u ++ "/" } =
    tvProxyUrlOf { cfg with tvProxyUrl := u } := by
  simp only [tvProxyUrlOf]
  rw [if_pos happend_ne, if_pos h0, hnorm1, hnorm2]
refine ⟨hnorm1, hnorm2, ?_, ?_, ?_, ?_⟩
· exact buildTvStreams_proj encU _ _ ch vavoo hmf1 rfl rfl
· exact buildTvStreams_proj encU _ _ ch vavoo hmf2 rfl rfl
· exact buildTvStreams_proj encU _ _ ch vavoo rfl rfl htv
· intro v hv
  rcases hv with hv | hv
  · rw [show normalizeProxyUrl v = v by unfold normalizeProxyUrl; rw [if_neg hv]]
    unfold normalizeProxyUrl
    rw [if_neg hv]
  · by_cases hlast : v.data.getLast? = some '/'
    · rw [show normalizeProxyUrl v = String.mk v.data.dropLast by
        unfold normalizeProxyUrl; rw [if_pos hlast]]
      unfold normalizeProxyUrl
      rw [show (String.mk v.data.dropLast).data = v.data.dropLast from rfl, if_neg hv]
    · rw [show normalizeProxyUrl v = v by unfold normalizeProxyUrl; rw [if_neg hlast]]
      unfold normalizeProxyUrl
      rw [if_neg hlast]

/-- Witness for C10's amended claim: the concrete base `http://p`
normalizes identically with and without a trailing slash. -/
theorem proxy_trailing_slash_invariance_witness :
    normalizeProxyUrl ("http://p" ++ "/") = "http://p" ∧ normalizeProxyUrl "http://p" = "http://p" := by
have h := proxy_trailing_slash_invariance "http://p" (TvConfig.mk "" "" "" "" "")
  (TvChannelRec.mk "x" "X" "" "" "") none (fun s => s) (by decide) (by decide)
exact ⟨h.1, h.2.1⟩

end StreamViX
